import Mathlib

/-!
# Sandbox metadata update: embedding and properties

A shallow embedding of

* `packages/api/internal/orchestrator/update_sandbox_metadata.go`
  (`Orchestrator.UpdateSandboxMetadata`), and
* `packages/api/internal/handlers/sandbox_update.go`
  (`APIStore.PatchSandboxesSandboxID`).

Go maps are finite maps with unique keys and no iteration order; they are
embedded as association lists with unique keys (`AList`), the list order
standing for whichever order the runtime picks when a map is ranged over.
Every statement below quantifies over all such lists, hence over all orders.
Observable equality of two maps is equality of their lookups.

The collaborators of the two functions (the instance cache, the node client,
the body parser, the telemetry sink) are not part of the embedded files. Their
results are taken as parameters (`Deps`), and every call made to them is
recorded in a log (`Call`) so that "no remote call is made" can be stated.
-/

namespace Infra

/-! ## Data model -/

/-- A Go `error` value, observed through the text its `Error()` method gives. -/
structure GoError where
  text : String
deriving DecidableEq

/-- The allocated part of a `map[string]string`: unique keys, string values. -/
abbrev Entries := AList (fun _ : String => String)

/-- A value of Go type `map[string]string`: the nil map or an allocated map. -/
inductive GoMap where
  | nil : GoMap
  | alloc (m : Entries) : GoMap
deriving DecidableEq

/-- The entries a `range` over the map visits; none for the nil map. -/
def GoMap.entries : GoMap → List (Sigma fun _ : String => String)
  | .nil => []
  | .alloc m => m.entries

/-- Go `v, ok := m[k]`: `some v` when the key is present, `none` otherwise. -/
def GoMap.get : GoMap → String → Option String
  | .nil, _ => none
  | .alloc m, k => m.lookup k

/-- The keys of the map. -/
def GoMap.keys : GoMap → List String
  | .nil => []
  | .alloc m => m.keys

/-- Go `len(m)`. -/
def GoMap.len (m : GoMap) : Nat := m.keys.length

/-- Build an allocated map from a literal, as a Go composite literal does. -/
def GoMap.lit (l : List (String × String)) : GoMap :=
  .alloc (l.foldl (fun acc e => acc.insert e.1 e.2) ∅)

/-- The loop `for k, v := range src { dst[k] = v }`. -/
def rangeAssign (dst : Entries) (src : GoMap) : Entries :=
  src.entries.foldl (fun acc e => acc.insert e.1 e.2) dst

/-- Lines 46-53 of `update_sandbox_metadata.go`: a fresh map receives every
entry of the current metadata, then every entry of the patch. -/
def newMetadata (current patch : GoMap) : Entries :=
  rangeAssign (rangeAssign ∅ current) patch

/-- Modelled from the spec: the declaration of the instance record
(`InstanceInfo`) is not among the embedded files. It identifies the owning
node (`Node.ID`), carries the end time and holds the current metadata map. -/
structure InstanceInfo where
  nodeID : String
  endTime : Nat
  metadata : GoMap
deriving DecidableEq

/-- The instance cache: at most one record per sandbox identifier. -/
abbrev InstanceCache := String → Option InstanceInfo

/-- The request message `orchestrator.SandboxUpdateRequest`. -/
structure SandboxUpdateRequest where
  SandboxId : String
  Metadata : GoMap
deriving DecidableEq

/-- The error type `api.APIError` built by `UpdateSandboxMetadata`. -/
structure APIError where
  Err : GoError
  ClientMsg : String
  Code : Nat
deriving DecidableEq

/-- A node client: `Update` is the error result of `client.Sandbox.Update`
(`none` for a nil error); the response message is discarded by the caller. -/
structure Client where
  Update : SandboxUpdateRequest → Option GoError

/-- Results of the collaborators that are outside the embedded files. -/
structure Deps where
  /-- The error `instanceCache.Get` returns for an identifier without record. -/
  getErr : String → GoError
  /-- The outcome of `o.GetClient(ctx, nodeID)`. -/
  GetClient : String → Except GoError Client
  /-- The helper `utils.UnwrapGRPCError`. -/
  UnwrapGRPCError : Option GoError → Option GoError
  /-- The helper `utils.ShortID`. -/
  ShortID : String → String

/-- A call made to a collaborator, in the order the code makes it. -/
inductive Call where
  | cacheGet (sandboxID : String) : Call
  | getClient (nodeID : String) : Call
  | sandboxUpdate (req : SandboxUpdateRequest) : Call
  | reportEvent (msg : String) : Call
  | reportError (msg : String) (err : GoError) : Call
  | reportCriticalError (msg : String) (err : GoError) : Call
  | sendAPIStoreError (code : Nat) (msg : String) : Call
  | status (code : Nat) : Call
deriving DecidableEq

/-- Modelled from the spec: `instanceCache.Get` is not among the embedded
files. The spec gives `get(id) -> InstanceRecord | NotFound`: the record when
the cache has one for the identifier, an error otherwise. -/
def instanceCacheGet (o : Deps) (cache : InstanceCache) (sandboxID : String) :
    Except GoError InstanceInfo :=
  match cache sandboxID with
  | some info => .ok info
  | none => .error (o.getErr sandboxID)

/-- Go `instanceInfo.Metadata = newMetadata` through the pointer the cache
handed out: the record stored under the identifier gets the new metadata, its
other fields stay. -/
def setMetadata (cache : InstanceCache) (sandboxID : String) (m : GoMap) : InstanceCache :=
  match cache sandboxID with
  | some info => Function.update cache sandboxID (some ⟨info.nodeID, info.endTime, m⟩)
  | none => cache

/-- What a run of `UpdateSandboxMetadata` leaves behind. -/
structure Outcome where
  result : Option APIError
  cache : InstanceCache
  calls : List Call

/-- The method `Orchestrator.UpdateSandboxMetadata`. -/
def UpdateSandboxMetadata (o : Deps) (cache : InstanceCache) (sandboxID : String)
    (metadata : GoMap) : Outcome :=
  match instanceCacheGet o cache sandboxID with
  | .error err =>
    ⟨some ⟨err, "Sandbox not found", 404⟩, cache, [.cacheGet sandboxID]⟩
  | .ok instanceInfo =>
    match o.GetClient instanceInfo.nodeID with
    | .error err =>
      ⟨some ⟨err, "Failed to connect to sandbox node", 500⟩, cache,
        [.cacheGet sandboxID, .getClient instanceInfo.nodeID]⟩
    | .ok client =>
      let merged := newMetadata instanceInfo.metadata metadata
      let req : SandboxUpdateRequest := ⟨sandboxID, .alloc merged⟩
      match o.UnwrapGRPCError (client.Update req) with
      | some err =>
        ⟨some ⟨err, "Failed to update sandbox metadata", 500⟩, cache,
          [.cacheGet sandboxID, .getClient instanceInfo.nodeID, .sandboxUpdate req]⟩
      | none =>
        ⟨none, setMetadata cache sandboxID (.alloc merged),
          [.cacheGet sandboxID, .getClient instanceInfo.nodeID, .sandboxUpdate req,
            .reportEvent "Updated sandbox metadata"]⟩

/-- The request body `api.PatchSandboxesSandboxIDJSONRequestBody`: `Metadata`
is a pointer, nil when the field is absent. -/
structure Body where
  Metadata : Option GoMap

/-- Lines 31-34 of `sandbox_update.go`: `var metadata map[string]string`, set
to `*body.Metadata` when the pointer is not nil, the nil map otherwise. -/
def bodyPatch (body : Body) : GoMap :=
  match body.Metadata with
  | some m => m
  | none => .nil

/-- Modelled from the spec: `sendAPIStoreError` is not among the embedded
files; it answers with the given status code and message. `Response` is what
the handler sends to the caller: the status, and the message of an error
answer (`none` for the bare `c.Status`). -/
structure Response where
  status : Nat
  message : Option String
deriving DecidableEq

/-- What a run of the handler leaves behind. -/
structure HandlerOutcome where
  response : Response
  cache : InstanceCache
  calls : List Call

/-- The handler `APIStore.PatchSandboxesSandboxID`. The outcome of
`utils.ParseBody` is the argument `parsed`. -/
def PatchSandboxesSandboxID (o : Deps) (cache : InstanceCache) (sandboxID : String)
    (parsed : Except GoError Body) : HandlerOutcome :=
  let sandboxID := o.ShortID sandboxID
  match parsed with
  | .error err =>
    let msg := "Error when parsing request: " ++ err.text
    ⟨⟨400, some msg⟩, cache,
      [.sendAPIStoreError 400 msg, .reportCriticalError "error when parsing request" err]⟩
  | .ok body =>
    let metadata := bodyPatch body
    let r := UpdateSandboxMetadata o cache sandboxID metadata
    match r.result with
    | some apiErr =>
      ⟨⟨apiErr.Code, some apiErr.ClientMsg⟩, r.cache,
        r.calls ++ [.reportError "error when updating sandbox metadata" apiErr.Err,
          .sendAPIStoreError apiErr.Code apiErr.ClientMsg]⟩
    | none => ⟨⟨200, none⟩, r.cache, r.calls ++ [.status 200]⟩

/-- The cached value under key `k` of sandbox `sandboxID`, as a reader of the
cache sees it; `none` when there is no record or no such key. -/
def cachedGet (cache : InstanceCache) (sandboxID k : String) : Option String :=
  match cache sandboxID with
  | some info => info.metadata.get k
  | none => none

/-- The remote update requests among the logged calls. -/
def updateRequests : List Call → List SandboxUpdateRequest
  | [] => []
  | .sandboxUpdate req :: rest => req :: updateRequests rest
  | _ :: rest => updateRequests rest

/-- The node connections among the logged calls. -/
def clientLookups : List Call → List String
  | [] => []
  | .getClient nodeID :: rest => nodeID :: clientLookups rest
  | _ :: rest => clientLookups rest

/-- The patch "p1 overridden by p2", following the words of the claim: every
entry of p2, and the entries of p1 whose key p2 does not have. -/
def patchOverriddenBy (p1 p2 : GoMap) : GoMap :=
  .alloc ((rangeAssign ∅ p2) ∪ (rangeAssign ∅ p1))

/-- The failure kinds of the PATCH operation. -/
inductive FailureKind where
  | badRequest : FailureKind
  | notFound : FailureKind
  | nodeUnavailable : FailureKind
  | remoteUpdateFailed : FailureKind
deriving DecidableEq

/-- The kind of failure of a PATCH run, read off the collaborators: the first
of parse, locate, connect, remote update that fails; `none` when none does. -/
def failureKind (o : Deps) (cache : InstanceCache) (sandboxID : String)
    (parsed : Except GoError Body) : Option FailureKind :=
  match parsed with
  | .error _ => some .badRequest
  | .ok body =>
    match cache (o.ShortID sandboxID) with
    | none => some .notFound
    | some info =>
      match o.GetClient info.nodeID with
      | .error _ => some .nodeUnavailable
      | .ok client =>
        match o.UnwrapGRPCError (client.Update
            ⟨o.ShortID sandboxID, .alloc (newMetadata info.metadata (bodyPatch body))⟩) with
        | some _ => some .remoteUpdateFailed
        | none => none

/-! ## Interleaved calls

`UpdateSandboxMetadata` holds no lock. Between its blocking points a call does
one of three steps: read the record and merge (lines 28-53), remote update
(lines 56-70), local commit (lines 73-77). -/

/-- Where one call of `UpdateSandboxMetadata` stands. -/
inductive CallState where
  | start (sandboxID : String) (metadata : GoMap) : CallState
  | merged (sandboxID : String) (client : Client) (m : Entries) : CallState
  | acked (sandboxID : String) (m : Entries) : CallState
  | done (result : Option APIError) : CallState

/-- One step of one call, on the shared cache. -/
def stepCall (o : Deps) (cache : InstanceCache) : CallState → InstanceCache × CallState
  | .start sandboxID metadata =>
    match instanceCacheGet o cache sandboxID with
    | .error err => (cache, .done (some ⟨err, "Sandbox not found", 404⟩))
    | .ok instanceInfo =>
      match o.GetClient instanceInfo.nodeID with
      | .error err => (cache, .done (some ⟨err, "Failed to connect to sandbox node", 500⟩))
      | .ok client => (cache, .merged sandboxID client (newMetadata instanceInfo.metadata metadata))
  | .merged sandboxID client m =>
    match o.UnwrapGRPCError (client.Update ⟨sandboxID, .alloc m⟩) with
    | some err => (cache, .done (some ⟨err, "Failed to update sandbox metadata", 500⟩))
    | none => (cache, .acked sandboxID m)
  | .acked sandboxID m => (setMetadata cache sandboxID (.alloc m), .done none)
  | .done r => (cache, .done r)

/-- Two calls in flight on one cache. -/
structure TwoCalls where
  cache : InstanceCache
  first : CallState
  second : CallState

/-- The scheduler lets one of the two calls take its next step: `false` the
first call, `true` the second. -/
def stepTwo (o : Deps) (s : TwoCalls) (b : Bool) : TwoCalls :=
  match b with
  | false => let r := stepCall o s.cache s.first; ⟨r.1, r.2, s.second⟩
  | true => let r := stepCall o s.cache s.second; ⟨r.1, s.first, r.2⟩

/-- Run a schedule from the point where both calls have been issued. -/
def runSchedule (o : Deps) (cache : InstanceCache) (sandboxID : String) (p1 p2 : GoMap)
    (sched : List Bool) : TwoCalls :=
  sched.foldl (stepTwo o) ⟨cache, .start sandboxID p1, .start sandboxID p2⟩

/-- An interleaving gives each call exactly its three steps. -/
def isInterleaving (sched : List Bool) : Bool :=
  sched.count false == 3 && sched.count true == 3

/-- Whether a call state is a finished, successful call. -/
def CallState.succeeded : CallState → Bool
  | .done none => true
  | _ => false

/-! ## Concrete collaborators used by the examples -/

/-- A node client that accepts every update. -/
def okClient : Client := ⟨fun _ => none⟩

/-- A node client that rejects every update with the given error. -/
def failClient (e : GoError) : Client := ⟨fun _ => some e⟩

/-- Collaborators that all succeed; `ShortID` and `UnwrapGRPCError` are the
identity. -/
def okDeps : Deps :=
  ⟨fun _ => ⟨"not found"⟩, fun _ => .ok okClient, fun e => e, fun s => s⟩

/-- Collaborators whose node rejects the update with the given error. -/
def rejectDeps (e : GoError) : Deps :=
  ⟨fun _ => ⟨"not found"⟩, fun _ => .ok (failClient e), fun e => e, fun s => s⟩

/-- Collaborators whose node cannot be reached. -/
def unreachableDeps (e : GoError) : Deps :=
  ⟨fun _ => ⟨"not found"⟩, fun _ => .error e, fun e => e, fun s => s⟩

/-- A cache with one record, for sandbox `"sbx"` on node `"node-1"`. -/
def oneRecord (endTime : Nat) (m : GoMap) : InstanceCache :=
  fun sandboxID => if sandboxID = "sbx" then some ⟨"node-1", endTime, m⟩ else none

/-! ## Data of the integration tests -/

/-- Initial metadata of `TestSandboxMetadataUpdate`. -/
def initialMetadata : GoMap :=
  .lit [("sandboxType", "test"), ("version", "1.0.0"), ("environment", "supr-cupr")]

/-- The patch of `TestSandboxMetadataUpdate`. -/
def updateMetadata : GoMap :=
  .lit [("environment", "e2b-is-place-to-be"), ("version", "1.1.0"), ("branch", "feature-test")]

/-- The patch of `TestSandboxMetadataUpdateWithSpecialCharacters`. -/
def specialMetadata : GoMap :=
  .lit [("user.email", "test@example.com"), ("config/path", "/opt/app/config"),
    ("build-number", "2024.01.15"), ("feature_flag", "true"), ("emoji", "🚀"),
    ("unicode", "αβγδε"), ("json_like", "\x7b\"key\": \"value\"\x7d"),
    ("spaces", "value with spaces")]

/-- Initial metadata of `TestSandboxMetadataUpdateMultipleUpdates`. -/
def multiInitial : GoMap := .lit [("version", "1.0.0"), ("env", "test")]

/-- First patch of `TestSandboxMetadataUpdateMultipleUpdates`. -/
def firstUpdate : GoMap := .lit [("version", "1.1.0"), ("branch", "feature-a")]

/-- Second patch of `TestSandboxMetadataUpdateMultipleUpdates`. -/
def secondUpdate : GoMap :=
  .lit [("version", "1.2.0"), ("build_id", "abc123"), ("deployed", "true")]

/-! ## Lookup in the merged map -/

theorem lookup_foldl_insert (es : List (Sigma fun _ : String => String))
    (hnd : es.NodupKeys) (dst : Entries) (k : String) :
    (es.foldl (fun acc e => acc.insert e.1 e.2) dst).lookup k =
      (es.dlookup k).orElse (fun _ => dst.lookup k) := by
  induction es generalizing dst with
  | nil => simp
  | cons e rest ih =>
    obtain ⟨hnot, hrest⟩ := List.nodupKeys_cons.mp hnd
    rw [List.foldl_cons, ih hrest]
    by_cases hk : k = e.1
    · subst hk
      have hnone : rest.dlookup e.1 = none := List.dlookup_eq_none.mpr hnot
      obtain ⟨a, b⟩ := e
      simp [hnone, AList.lookup_insert]
    · obtain ⟨a, b⟩ := e
      have hk2 : a ≠ k := fun h => hk h.symm
      simp [List.dlookup_cons_ne _ _ hk, AList.lookup_insert_ne hk]

theorem lookup_rangeAssign (dst : Entries) (src : GoMap) (k : String) :
    (rangeAssign dst src).lookup k = (src.get k).orElse (fun _ => dst.lookup k) := by
  cases src with
  | nil => simp [rangeAssign, GoMap.entries, GoMap.get]
  | alloc m =>
    simpa [rangeAssign, GoMap.entries, GoMap.get, AList.lookup] using
      lookup_foldl_insert m.entries m.nodupKeys dst k

theorem lookup_newMetadata (current patch : GoMap) (k : String) :
    (newMetadata current patch).lookup k = (patch.get k).orElse (fun _ => current.get k) := by
  simp [newMetadata, lookup_rangeAssign]

theorem GoMap.mem_keys_iff (m : GoMap) (k : String) : k ∈ m.keys ↔ (m.get k).isSome := by
  cases m with
  | nil => simp [GoMap.keys, GoMap.get]
  | alloc e => simp [GoMap.keys, GoMap.get, AList.lookup_isSome, AList.mem_keys]

theorem mem_newMetadata (current patch : GoMap) (k : String) :
    k ∈ (newMetadata current patch).keys ↔ k ∈ current.keys ∨ k ∈ patch.keys := by
  rw [← AList.mem_keys, ← AList.lookup_isSome, lookup_newMetadata,
    GoMap.mem_keys_iff, GoMap.mem_keys_iff]
  cases patch.get k <;> cases current.get k <;> simp

/-! ## The four paths of `UpdateSandboxMetadata` -/

theorem usm_notFound (o : Deps) (cache : InstanceCache) (sandboxID : String) (patch : GoMap)
    (h : cache sandboxID = none) :
    UpdateSandboxMetadata o cache sandboxID patch =
      ⟨some ⟨o.getErr sandboxID, "Sandbox not found", 404⟩, cache, [.cacheGet sandboxID]⟩ := by
  simp [UpdateSandboxMetadata, instanceCacheGet, h]

theorem usm_unreachable (o : Deps) (cache : InstanceCache) (sandboxID : String) (patch : GoMap)
    (info : InstanceInfo) (err : GoError) (h : cache sandboxID = some info)
    (hc : o.GetClient info.nodeID = .error err) :
    UpdateSandboxMetadata o cache sandboxID patch =
      ⟨some ⟨err, "Failed to connect to sandbox node", 500⟩, cache,
        [.cacheGet sandboxID, .getClient info.nodeID]⟩ := by
  simp [UpdateSandboxMetadata, instanceCacheGet, h, hc]

theorem usm_rejected (o : Deps) (cache : InstanceCache) (sandboxID : String) (patch : GoMap)
    (info : InstanceInfo) (client : Client) (err : GoError) (h : cache sandboxID = some info)
    (hc : o.GetClient info.nodeID = .ok client)
    (hu : o.UnwrapGRPCError
      (client.Update ⟨sandboxID, .alloc (newMetadata info.metadata patch)⟩) = some err) :
    UpdateSandboxMetadata o cache sandboxID patch =
      ⟨some ⟨err, "Failed to update sandbox metadata", 500⟩, cache,
        [.cacheGet sandboxID, .getClient info.nodeID,
          .sandboxUpdate ⟨sandboxID, .alloc (newMetadata info.metadata patch)⟩]⟩ := by
  simp [UpdateSandboxMetadata, instanceCacheGet, h, hc, hu]

theorem usm_acked (o : Deps) (cache : InstanceCache) (sandboxID : String) (patch : GoMap)
    (info : InstanceInfo) (client : Client) (h : cache sandboxID = some info)
    (hc : o.GetClient info.nodeID = .ok client)
    (hu : o.UnwrapGRPCError
      (client.Update ⟨sandboxID, .alloc (newMetadata info.metadata patch)⟩) = none) :
    UpdateSandboxMetadata o cache sandboxID patch =
      ⟨none, setMetadata cache sandboxID (.alloc (newMetadata info.metadata patch)),
        [.cacheGet sandboxID, .getClient info.nodeID,
          .sandboxUpdate ⟨sandboxID, .alloc (newMetadata info.metadata patch)⟩,
          .reportEvent "Updated sandbox metadata"]⟩ := by
  simp [UpdateSandboxMetadata, instanceCacheGet, h, hc, hu]

/-- Every run takes exactly one of the four paths. -/
theorem usm_cases (o : Deps) (cache : InstanceCache) (sandboxID : String) (patch : GoMap) :
    (cache sandboxID = none) ∨
    (∃ info err, cache sandboxID = some info ∧ o.GetClient info.nodeID = .error err) ∨
    (∃ info client err, cache sandboxID = some info ∧ o.GetClient info.nodeID = .ok client ∧
      o.UnwrapGRPCError
        (client.Update ⟨sandboxID, .alloc (newMetadata info.metadata patch)⟩) = some err) ∨
    (∃ info client, cache sandboxID = some info ∧ o.GetClient info.nodeID = .ok client ∧
      o.UnwrapGRPCError
        (client.Update ⟨sandboxID, .alloc (newMetadata info.metadata patch)⟩) = none) := by
  cases h : cache sandboxID with
  | none => exact Or.inl rfl
  | some info =>
    right
    cases hc : o.GetClient info.nodeID with
    | error err => exact Or.inl ⟨info, err, rfl, hc⟩
    | ok client =>
      right
      cases hu : o.UnwrapGRPCError
          (client.Update ⟨sandboxID, .alloc (newMetadata info.metadata patch)⟩) with
      | some err => exact Or.inl ⟨info, client, err, rfl, hc, hu⟩
      | none => exact Or.inr ⟨info, client, rfl, hc, hu⟩

/-- A run that returns nil took the acknowledged path. -/
theorem usm_result_none (o : Deps) (cache : InstanceCache) (sandboxID : String) (patch : GoMap)
    (h : (UpdateSandboxMetadata o cache sandboxID patch).result = none) :
    ∃ info client, cache sandboxID = some info ∧ o.GetClient info.nodeID = .ok client ∧
      o.UnwrapGRPCError
        (client.Update ⟨sandboxID, .alloc (newMetadata info.metadata patch)⟩) = none := by
  rcases usm_cases o cache sandboxID patch with h0 | ⟨info, err, h1, h2⟩ |
    ⟨info, client, err, h1, h2, h3⟩ | h4
  · rw [usm_notFound o cache sandboxID patch h0] at h; simp at h
  · rw [usm_unreachable o cache sandboxID patch info err h1 h2] at h; simp at h
  · rw [usm_rejected o cache sandboxID patch info client err h1 h2 h3] at h; simp at h
  · exact h4

theorem setMetadata_same (cache : InstanceCache) (sandboxID : String) (m : GoMap)
    (info : InstanceInfo) (h : cache sandboxID = some info) :
    setMetadata cache sandboxID m sandboxID = some ⟨info.nodeID, info.endTime, m⟩ := by
  simp [setMetadata, h]

theorem setMetadata_other (cache : InstanceCache) (sandboxID other : String) (m : GoMap)
    (h : other ≠ sandboxID) : setMetadata cache sandboxID m other = cache other := by
  unfold setMetadata
  cases cache sandboxID with
  | none => rfl
  | some info => simp [Function.update, h]

theorem cachedGet_setMetadata (cache : InstanceCache) (sandboxID : String) (m : GoMap)
    (info : InstanceInfo) (h : cache sandboxID = some info) (k : String) :
    cachedGet (setMetadata cache sandboxID m) sandboxID k = m.get k := by
  simp [cachedGet, setMetadata_same cache sandboxID m info h]

theorem cachedGet_of_record (cache : InstanceCache) (sandboxID : String)
    (info : InstanceInfo) (h : cache sandboxID = some info) (k : String) :
    cachedGet cache sandboxID k = info.metadata.get k := by
  simp [cachedGet, h]

/-! ## Merge -/

/-- C1: the map that `UpdateSandboxMetadata` builds from the record's current
metadata and the patch, and sends in its remote update request, keeps current's
value at every key the patch lacks, has the patch's value at every key the
patch has, and its keys are exactly the keys of current together with the keys
of the patch. -/
theorem merged_is_current_overridden_by_patch (o : Deps) (cache : InstanceCache)
    (sandboxID : String) (patch : GoMap) (info : InstanceInfo) (client : Client)
    (hrec : cache sandboxID = some info) (hcli : o.GetClient info.nodeID = .ok client)
    (k : String) :
    updateRequests (UpdateSandboxMetadata o cache sandboxID patch).calls =
        [⟨sandboxID, .alloc (newMetadata info.metadata patch)⟩] ∧
    (patch.get k = none →
      (newMetadata info.metadata patch).lookup k = info.metadata.get k) ∧
    (∀ v, patch.get k = some v → (newMetadata info.metadata patch).lookup k = some v) ∧
    (k ∈ (newMetadata info.metadata patch).keys ↔ k ∈ info.metadata.keys ∨ k ∈ patch.keys) := by
  refine ⟨?_, ?_, ?_, mem_newMetadata _ _ k⟩
  · cases hu : o.UnwrapGRPCError
        (client.Update ⟨sandboxID, .alloc (newMetadata info.metadata patch)⟩) with
    | some err =>
      rw [usm_rejected o cache sandboxID patch info client err hrec hcli hu]
      simp [updateRequests]
    | none =>
      rw [usm_acked o cache sandboxID patch info client hrec hcli hu]
      simp [updateRequests]
  · intro h; simp [lookup_newMetadata, h]
  · intro v h; simp [lookup_newMetadata, h]

/-- C1 on the data of `TestSandboxMetadataUpdate`: the merged map has the
overridden version and exactly four keys. -/
theorem merged_is_current_overridden_by_patch_witness :
    oneRecord 0 initialMetadata "sbx" = some ⟨"node-1", 0, initialMetadata⟩ ∧
    okDeps.GetClient "node-1" = .ok okClient ∧
    (updateRequests (UpdateSandboxMetadata okDeps (oneRecord 0 initialMetadata) "sbx"
        updateMetadata).calls =
        [⟨"sbx", .alloc (newMetadata initialMetadata updateMetadata)⟩] ∧
      (updateMetadata.get "version" = none →
        (newMetadata initialMetadata updateMetadata).lookup "version" =
          initialMetadata.get "version") ∧
      (∀ v, updateMetadata.get "version" = some v →
        (newMetadata initialMetadata updateMetadata).lookup "version" = some v) ∧
      ("version" ∈ (newMetadata initialMetadata updateMetadata).keys ↔
        "version" ∈ initialMetadata.keys ∨ "version" ∈ updateMetadata.keys)) ∧
    (newMetadata initialMetadata updateMetadata).lookup "version" = some "1.1.0" ∧
    (newMetadata initialMetadata updateMetadata).lookup "sandboxType" = some "test" ∧
    (newMetadata initialMetadata updateMetadata).lookup "branch" = some "feature-test" ∧
    (newMetadata initialMetadata updateMetadata).lookup "environment" =
      some "e2b-is-place-to-be" ∧
    (newMetadata initialMetadata updateMetadata).keys.length = 4 :=
  ⟨rfl, rfl,
    merged_is_current_overridden_by_patch okDeps (oneRecord 0 initialMetadata) "sbx"
      updateMetadata ⟨"node-1", 0, initialMetadata⟩ okClient rfl rfl "version",
    by decide, by decide, by decide, by decide, by decide⟩

/-! ## Failure and success of one call -/

theorem handler_ok_response (o : Deps) (cache : InstanceCache) (raw : String) (body : Body) :
    (PatchSandboxesSandboxID o cache raw (.ok body)).response =
      (match (UpdateSandboxMetadata o cache (o.ShortID raw) (bodyPatch body)).result with
        | none => ⟨200, none⟩
        | some e => ⟨e.Code, some e.ClientMsg⟩) ∧
    (PatchSandboxesSandboxID o cache raw (.ok body)).cache =
      (UpdateSandboxMetadata o cache (o.ShortID raw) (bodyPatch body)).cache := by
  unfold PatchSandboxesSandboxID
  cases h : (UpdateSandboxMetadata o cache (o.ShortID raw) (bodyPatch body)).result <;>
    simp [h]

/-- C2: a call of `UpdateSandboxMetadata` that returns a failure leaves the
instance cache, hence the cached metadata of the sandbox, as it was before the
call, whatever the patch. -/
theorem failed_update_leaves_cache_untouched (o : Deps) (cache : InstanceCache)
    (sandboxID : String) (patch : GoMap) (e : APIError)
    (h : (UpdateSandboxMetadata o cache sandboxID patch).result = some e) :
    (UpdateSandboxMetadata o cache sandboxID patch).cache = cache ∧
    ∀ k, cachedGet (UpdateSandboxMetadata o cache sandboxID patch).cache sandboxID k =
      cachedGet cache sandboxID k := by
  have hc : (UpdateSandboxMetadata o cache sandboxID patch).cache = cache := by
    rcases usm_cases o cache sandboxID patch with h0 | ⟨info, err, h1, h2⟩ |
      ⟨info, client, err, h1, h2, h3⟩ | ⟨info, client, h1, h2, h3⟩
    · rw [usm_notFound o cache sandboxID patch h0]
    · rw [usm_unreachable o cache sandboxID patch info err h1 h2]
    · rw [usm_rejected o cache sandboxID patch info client err h1 h2 h3]
    · rw [usm_acked o cache sandboxID patch info client h1 h2 h3] at h; simp at h
  exact ⟨hc, fun k => by rw [hc]⟩

/-- C2 on a node that rejects the update: the call fails with code 500 and the
cache is the one before the call. -/
theorem failed_update_leaves_cache_untouched_witness :
    (UpdateSandboxMetadata (rejectDeps ⟨"rpc error"⟩) (oneRecord 0 initialMetadata) "sbx"
        updateMetadata).result = some ⟨⟨"rpc error"⟩, "Failed to update sandbox metadata", 500⟩ ∧
    ((UpdateSandboxMetadata (rejectDeps ⟨"rpc error"⟩) (oneRecord 0 initialMetadata) "sbx"
        updateMetadata).cache = oneRecord 0 initialMetadata ∧
      ∀ k, cachedGet (UpdateSandboxMetadata (rejectDeps ⟨"rpc error"⟩)
          (oneRecord 0 initialMetadata) "sbx" updateMetadata).cache "sbx" k =
        cachedGet (oneRecord 0 initialMetadata) "sbx" k) :=
  ⟨rfl, failed_update_leaves_cache_untouched (rejectDeps ⟨"rpc error"⟩)
    (oneRecord 0 initialMetadata) "sbx" updateMetadata
    ⟨⟨"rpc error"⟩, "Failed to update sandbox metadata", 500⟩ rfl⟩

/-- C3: a call of `UpdateSandboxMetadata` that returns nil made exactly one
remote update request; the request carries the sandbox id of the lookup and the
merged map, the node acknowledged that request, and the record's metadata after
the call is that same map, its other fields unchanged. Keys and values are
arbitrary strings: the cached value at each key is the patch's when the patch
has the key and the previous one otherwise. -/
theorem successful_update_commits_acknowledged_map (o : Deps) (cache : InstanceCache)
    (sandboxID : String) (patch : GoMap)
    (h : (UpdateSandboxMetadata o cache sandboxID patch).result = none) :
    ∃ info client, cache sandboxID = some info ∧ o.GetClient info.nodeID = .ok client ∧
      o.UnwrapGRPCError
        (client.Update ⟨sandboxID, .alloc (newMetadata info.metadata patch)⟩) = none ∧
      (UpdateSandboxMetadata o cache sandboxID patch).calls.head? =
        some (.cacheGet sandboxID) ∧
      updateRequests (UpdateSandboxMetadata o cache sandboxID patch).calls =
        [⟨sandboxID, .alloc (newMetadata info.metadata patch)⟩] ∧
      (UpdateSandboxMetadata o cache sandboxID patch).cache sandboxID =
        some ⟨info.nodeID, info.endTime, .alloc (newMetadata info.metadata patch)⟩ ∧
      ∀ k, cachedGet (UpdateSandboxMetadata o cache sandboxID patch).cache sandboxID k =
        (patch.get k).orElse (fun _ => info.metadata.get k) := by
  obtain ⟨info, client, h1, h2, h3⟩ := usm_result_none o cache sandboxID patch h
  refine ⟨info, client, h1, h2, h3, ?_, ?_, ?_, ?_⟩
  · rw [usm_acked o cache sandboxID patch info client h1 h2 h3]
    rfl
  · rw [usm_acked o cache sandboxID patch info client h1 h2 h3]
    simp [updateRequests]
  · rw [usm_acked o cache sandboxID patch info client h1 h2 h3]
    exact setMetadata_same cache sandboxID _ info h1
  · intro k
    rw [usm_acked o cache sandboxID patch info client h1 h2 h3]
    simp only []
    rw [cachedGet_setMetadata cache sandboxID _ info h1 k]
    simp [GoMap.get, lookup_newMetadata]

/-- C3 on the data of `TestSandboxMetadataUpdateWithSpecialCharacters`: the
call succeeds and the cache holds the special keys and values unchanged. -/
theorem successful_update_commits_acknowledged_map_witness :
    (UpdateSandboxMetadata okDeps (oneRecord 0 .nil) "sbx" specialMetadata).result = none ∧
    (∃ info client, oneRecord 0 .nil "sbx" = some info ∧
      okDeps.GetClient info.nodeID = .ok client ∧
      okDeps.UnwrapGRPCError
        (client.Update ⟨"sbx", .alloc (newMetadata info.metadata specialMetadata)⟩) = none ∧
      (UpdateSandboxMetadata okDeps (oneRecord 0 .nil) "sbx" specialMetadata).calls.head? =
        some (.cacheGet "sbx") ∧
      updateRequests (UpdateSandboxMetadata okDeps (oneRecord 0 .nil) "sbx"
          specialMetadata).calls =
        [⟨"sbx", .alloc (newMetadata info.metadata specialMetadata)⟩] ∧
      (UpdateSandboxMetadata okDeps (oneRecord 0 .nil) "sbx" specialMetadata).cache "sbx" =
        some ⟨info.nodeID, info.endTime, .alloc (newMetadata info.metadata specialMetadata)⟩ ∧
      ∀ k, cachedGet (UpdateSandboxMetadata okDeps (oneRecord 0 .nil) "sbx"
          specialMetadata).cache "sbx" k =
        (specialMetadata.get k).orElse (fun _ => info.metadata.get k)) ∧
    cachedGet (UpdateSandboxMetadata okDeps (oneRecord 0 .nil) "sbx" specialMetadata).cache
      "sbx" "emoji" = some "🚀" ∧
    cachedGet (UpdateSandboxMetadata okDeps (oneRecord 0 .nil) "sbx" specialMetadata).cache
      "sbx" "unicode" = some "αβγδε" ∧
    cachedGet (UpdateSandboxMetadata okDeps (oneRecord 0 .nil) "sbx" specialMetadata).cache
      "sbx" "config/path" = some "/opt/app/config" ∧
    cachedGet (UpdateSandboxMetadata okDeps (oneRecord 0 .nil) "sbx" specialMetadata).cache
      "sbx" "json_like" = some "\x7b\"key\": \"value\"\x7d" :=
  ⟨rfl, successful_update_commits_acknowledged_map okDeps (oneRecord 0 .nil) "sbx"
    specialMetadata rfl, by decide, by decide, by decide, by decide⟩

/-- C4: for a sandbox identifier without record, `UpdateSandboxMetadata` returns
the failure with code 404 and client message "Sandbox not found", makes no
node connection and no remote update call, and returns the cache unchanged; the
handler, whose short identifier is that one, answers 404 and leaves the cache
unchanged. -/
theorem unknown_sandbox_is_not_found (o : Deps) (cache : InstanceCache) (sandboxID : String)
    (patch : GoMap) (h : cache sandboxID = none) :
    (UpdateSandboxMetadata o cache sandboxID patch).result =
      some ⟨o.getErr sandboxID, "Sandbox not found", 404⟩ ∧
    clientLookups (UpdateSandboxMetadata o cache sandboxID patch).calls = [] ∧
    updateRequests (UpdateSandboxMetadata o cache sandboxID patch).calls = [] ∧
    (UpdateSandboxMetadata o cache sandboxID patch).cache = cache ∧
    ∀ raw body, o.ShortID raw = sandboxID →
      (PatchSandboxesSandboxID o cache raw (.ok body)).response =
        ⟨404, some "Sandbox not found"⟩ ∧
      (PatchSandboxesSandboxID o cache raw (.ok body)).cache = cache := by
  refine ⟨?_, ?_, ?_, ?_, ?_⟩
  · rw [usm_notFound o cache sandboxID patch h]
  · rw [usm_notFound o cache sandboxID patch h]; simp [clientLookups]
  · rw [usm_notFound o cache sandboxID patch h]; simp [updateRequests]
  · rw [usm_notFound o cache sandboxID patch h]
  · intro raw body hs
    obtain ⟨hr, hc⟩ := handler_ok_response o cache raw body
    rw [hr, hc, hs, usm_notFound o cache sandboxID (bodyPatch body) h]
    exact ⟨rfl, rfl⟩

/-- C4 on the data of `TestSandboxMetadataUpdateNonExistentSandbox`. -/
theorem unknown_sandbox_is_not_found_witness :
    oneRecord 0 initialMetadata "nonexistent-sandbox-id" = none ∧
    ((UpdateSandboxMetadata okDeps (oneRecord 0 initialMetadata) "nonexistent-sandbox-id"
        (.lit [("test", "value")])).result =
      some ⟨okDeps.getErr "nonexistent-sandbox-id", "Sandbox not found", 404⟩ ∧
    clientLookups (UpdateSandboxMetadata okDeps (oneRecord 0 initialMetadata)
        "nonexistent-sandbox-id" (.lit [("test", "value")])).calls = [] ∧
    updateRequests (UpdateSandboxMetadata okDeps (oneRecord 0 initialMetadata)
        "nonexistent-sandbox-id" (.lit [("test", "value")])).calls = [] ∧
    (UpdateSandboxMetadata okDeps (oneRecord 0 initialMetadata) "nonexistent-sandbox-id"
        (.lit [("test", "value")])).cache = oneRecord 0 initialMetadata ∧
    ∀ raw body, okDeps.ShortID raw = "nonexistent-sandbox-id" →
      (PatchSandboxesSandboxID okDeps (oneRecord 0 initialMetadata) raw (.ok body)).response =
        ⟨404, some "Sandbox not found"⟩ ∧
      (PatchSandboxesSandboxID okDeps (oneRecord 0 initialMetadata) raw (.ok body)).cache =
        oneRecord 0 initialMetadata) :=
  ⟨by decide, unknown_sandbox_is_not_found okDeps (oneRecord 0 initialMetadata)
    "nonexistent-sandbox-id" (.lit [("test", "value")]) (by decide)⟩

/-! ## Shared facts on the cache after a call -/

theorem GoMap.get_of_len_zero (m : GoMap) (h : m.len = 0) (k : String) : m.get k = none := by
  cases m with
  | nil => rfl
  | alloc e =>
    have hk : e.keys = [] := List.length_eq_zero.mp h
    have hnot : k ∉ e := by
      rw [AList.mem_keys, hk]; simp
    simpa [GoMap.get] using AList.lookup_eq_none.mpr hnot

theorem cachedGet_after_ack (o : Deps) (cache : InstanceCache) (sandboxID : String)
    (patch : GoMap) (h : (UpdateSandboxMetadata o cache sandboxID patch).result = none)
    (k : String) :
    cachedGet (UpdateSandboxMetadata o cache sandboxID patch).cache sandboxID k =
      (patch.get k).orElse (fun _ => cachedGet cache sandboxID k) := by
  obtain ⟨info, client, h1, h2, h3⟩ := usm_result_none o cache sandboxID patch h
  rw [usm_acked o cache sandboxID patch info client h1 h2 h3]
  simp only []
  rw [cachedGet_setMetadata cache sandboxID _ info h1 k, cachedGet_of_record cache sandboxID info h1]
  simp [GoMap.get, lookup_newMetadata]

theorem usm_cache_shape (o : Deps) (cache : InstanceCache) (sandboxID : String)
    (patch : GoMap) :
    (UpdateSandboxMetadata o cache sandboxID patch).cache = cache ∨
    ∃ m, (UpdateSandboxMetadata o cache sandboxID patch).cache = setMetadata cache sandboxID m := by
  rcases usm_cases o cache sandboxID patch with h0 | ⟨info, err, h1, h2⟩ |
    ⟨info, client, err, h1, h2, h3⟩ | ⟨info, client, h1, h2, h3⟩
  · left; rw [usm_notFound o cache sandboxID patch h0]
  · left; rw [usm_unreachable o cache sandboxID patch info err h1 h2]
  · left; rw [usm_rejected o cache sandboxID patch info client err h1 h2 h3]
  · right; exact ⟨_, by rw [usm_acked o cache sandboxID patch info client h1 h2 h3]⟩

theorem setMetadata_frame (cache : InstanceCache) (sandboxID other : String) (m : GoMap) :
    (setMetadata cache sandboxID m other).map (fun r => (r.nodeID, r.endTime)) =
      (cache other).map (fun r => (r.nodeID, r.endTime)) := by
  by_cases ho : other = sandboxID
  · subst ho
    cases hc : cache other with
    | none => simp [setMetadata, hc]
    | some info => simp [setMetadata_same cache other m info hc]
  · rw [setMetadata_other cache sandboxID other m ho]

theorem get_patchOverriddenBy (p1 p2 : GoMap) (k : String) :
    (patchOverriddenBy p1 p2).get k = (p2.get k).orElse (fun _ => p1.get k) := by
  have hget : (patchOverriddenBy p1 p2).get k =
      ((rangeAssign ∅ p2) ∪ (rangeAssign ∅ p1)).lookup k := rfl
  rw [hget]
  cases h2 : p2.get k with
  | some v =>
    have hl : (rangeAssign ∅ p2).lookup k = some v := by simp [lookup_rangeAssign, h2]
    have hm : k ∈ rangeAssign ∅ p2 := AList.lookup_isSome.mp (by simp [hl])
    rw [AList.lookup_union_left hm, hl]; rfl
  | none =>
    have hl : (rangeAssign ∅ p2).lookup k = none := by simp [lookup_rangeAssign, h2]
    have hm : k ∉ rangeAssign ∅ p2 := AList.lookup_eq_none.mp hl
    rw [AList.lookup_union_right hm]
    simp [lookup_rangeAssign]

/-! ## Empty patch, sequences of patches, frame -/

/-- C5: when the lookup, the node connection and the remote update succeed, an
update whose patch has no entries (the empty map, or the nil map the handler
passes for a body without metadata field) returns nil, the handler answers 200,
and every cached key has the value it had before; a second such update leaves
every cached key as the first one did. -/
theorem empty_patch_is_noop (o o2 : Deps) (cache : InstanceCache) (sandboxID : String)
    (patch : GoMap) (info : InstanceInfo) (client client2 : Client)
    (hp : patch.len = 0)
    (hrec : cache sandboxID = some info)
    (hcli : o.GetClient info.nodeID = .ok client)
    (hupd : o.UnwrapGRPCError
      (client.Update ⟨sandboxID, .alloc (newMetadata info.metadata patch)⟩) = none)
    (hcli2 : o2.GetClient info.nodeID = .ok client2)
    (hupd2 : o2.UnwrapGRPCError (client2.Update ⟨sandboxID,
      .alloc (newMetadata (.alloc (newMetadata info.metadata patch)) patch)⟩) = none) :
    (UpdateSandboxMetadata o cache sandboxID patch).result = none ∧
    (∀ k, cachedGet (UpdateSandboxMetadata o cache sandboxID patch).cache sandboxID k =
      cachedGet cache sandboxID k) ∧
    (UpdateSandboxMetadata o2 (UpdateSandboxMetadata o cache sandboxID patch).cache
      sandboxID patch).result = none ∧
    (∀ k, cachedGet (UpdateSandboxMetadata o2
        (UpdateSandboxMetadata o cache sandboxID patch).cache sandboxID patch).cache sandboxID k =
      cachedGet (UpdateSandboxMetadata o cache sandboxID patch).cache sandboxID k) ∧
    (∀ raw body, o.ShortID raw = sandboxID → bodyPatch body = patch →
      (PatchSandboxesSandboxID o cache raw (.ok body)).response = ⟨200, none⟩ ∧
      ∀ k, cachedGet (PatchSandboxesSandboxID o cache raw (.ok body)).cache sandboxID k =
        cachedGet cache sandboxID k) := by
  have hr1 : (UpdateSandboxMetadata o cache sandboxID patch).result = none := by
    rw [usm_acked o cache sandboxID patch info client hrec hcli hupd]
  have hc1 : (UpdateSandboxMetadata o cache sandboxID patch).cache sandboxID =
      some ⟨info.nodeID, info.endTime, .alloc (newMetadata info.metadata patch)⟩ := by
    rw [usm_acked o cache sandboxID patch info client hrec hcli hupd]
    exact setMetadata_same cache sandboxID _ info hrec
  have hr2 : (UpdateSandboxMetadata o2 (UpdateSandboxMetadata o cache sandboxID patch).cache
      sandboxID patch).result = none := by
    rw [usm_acked o2 _ sandboxID patch _ client2 hc1 hcli2 hupd2]
  have hk1 : ∀ k, cachedGet (UpdateSandboxMetadata o cache sandboxID patch).cache sandboxID k =
      cachedGet cache sandboxID k := by
    intro k
    rw [cachedGet_after_ack o cache sandboxID patch hr1 k, GoMap.get_of_len_zero patch hp k]
    rfl
  refine ⟨hr1, hk1, hr2, ?_, ?_⟩
  · intro k
    rw [cachedGet_after_ack o2 _ sandboxID patch hr2 k, GoMap.get_of_len_zero patch hp k]
    rfl
  · intro raw body hs hb
    obtain ⟨hresp, hcache⟩ := handler_ok_response o cache raw body
    rw [hresp, hcache, hs, hb, hr1]
    exact ⟨rfl, hk1⟩

/-- C5 on the data of `TestSandboxMetadataUpdateNil` and
`TestSandboxMetadataUpdateEmpty`: a body without metadata and a body with the
empty map are both answered 200 and the original entry stays. -/
theorem empty_patch_is_noop_witness :
    GoMap.len .nil = 0 ∧
    ((UpdateSandboxMetadata okDeps (oneRecord 0 (.lit [("existing", "data")])) "sbx"
        .nil).result = none ∧
    (∀ k, cachedGet (UpdateSandboxMetadata okDeps (oneRecord 0 (.lit [("existing", "data")]))
        "sbx" .nil).cache "sbx" k =
      cachedGet (oneRecord 0 (.lit [("existing", "data")])) "sbx" k) ∧
    (UpdateSandboxMetadata okDeps (UpdateSandboxMetadata okDeps
      (oneRecord 0 (.lit [("existing", "data")])) "sbx" .nil).cache "sbx" .nil).result = none ∧
    (∀ k, cachedGet (UpdateSandboxMetadata okDeps (UpdateSandboxMetadata okDeps
        (oneRecord 0 (.lit [("existing", "data")])) "sbx" .nil).cache "sbx" .nil).cache "sbx" k =
      cachedGet (UpdateSandboxMetadata okDeps (oneRecord 0 (.lit [("existing", "data")]))
        "sbx" .nil).cache "sbx" k) ∧
    (∀ raw body, okDeps.ShortID raw = "sbx" → bodyPatch body = .nil →
      (PatchSandboxesSandboxID okDeps (oneRecord 0 (.lit [("existing", "data")])) raw
        (.ok body)).response = ⟨200, none⟩ ∧
      ∀ k, cachedGet (PatchSandboxesSandboxID okDeps
          (oneRecord 0 (.lit [("existing", "data")])) raw (.ok body)).cache "sbx" k =
        cachedGet (oneRecord 0 (.lit [("existing", "data")])) "sbx" k)) ∧
    (PatchSandboxesSandboxID okDeps (oneRecord 0 (.lit [("existing", "data")])) "sbx"
      (.ok ⟨none⟩)).response = ⟨200, none⟩ ∧
    cachedGet (PatchSandboxesSandboxID okDeps (oneRecord 0 (.lit [("existing", "data")])) "sbx"
      (.ok ⟨none⟩)).cache "sbx" "existing" = some "data" ∧
    (PatchSandboxesSandboxID okDeps (oneRecord 0 (.lit [("test", "value")])) "sbx"
      (.ok ⟨some (.lit [])⟩)).response = ⟨200, none⟩ ∧
    cachedGet (PatchSandboxesSandboxID okDeps (oneRecord 0 (.lit [("test", "value")])) "sbx"
      (.ok ⟨some (.lit [])⟩)).cache "sbx" "test" = some "value" :=
  ⟨rfl, empty_patch_is_noop okDeps okDeps (oneRecord 0 (.lit [("existing", "data")])) "sbx" .nil
    ⟨"node-1", 0, .lit [("existing", "data")]⟩ okClient okClient rfl rfl rfl rfl rfl rfl,
    by decide, by decide, by decide, by decide⟩

/-- C6: `UpdateSandboxMetadata` returns nil exactly when the lookup, the node
connection and the remote update all succeed. Otherwise it returns the failure
of the first step that fails: 404 "Sandbox not found" when there is no record;
500 "Failed to connect to sandbox node", with no remote update call, when the
node cannot be reached; 500 "Failed to update sandbox metadata" when the remote
update fails. The handler answers 200 on nil and otherwise the returned code
with the returned client message. -/
theorem result_is_first_failing_step (o : Deps) (cache : InstanceCache) (sandboxID : String)
    (patch : GoMap) :
    ((UpdateSandboxMetadata o cache sandboxID patch).result = none ↔
      ∃ info client, cache sandboxID = some info ∧ o.GetClient info.nodeID = .ok client ∧
        o.UnwrapGRPCError
          (client.Update ⟨sandboxID, .alloc (newMetadata info.metadata patch)⟩) = none) ∧
    (cache sandboxID = none →
      (UpdateSandboxMetadata o cache sandboxID patch).result =
        some ⟨o.getErr sandboxID, "Sandbox not found", 404⟩) ∧
    (∀ info err, cache sandboxID = some info → o.GetClient info.nodeID = .error err →
      (UpdateSandboxMetadata o cache sandboxID patch).result =
        some ⟨err, "Failed to connect to sandbox node", 500⟩ ∧
      updateRequests (UpdateSandboxMetadata o cache sandboxID patch).calls = []) ∧
    (∀ info client err, cache sandboxID = some info → o.GetClient info.nodeID = .ok client →
      o.UnwrapGRPCError
        (client.Update ⟨sandboxID, .alloc (newMetadata info.metadata patch)⟩) = some err →
      (UpdateSandboxMetadata o cache sandboxID patch).result =
        some ⟨err, "Failed to update sandbox metadata", 500⟩) ∧
    (∀ raw body, o.ShortID raw = sandboxID → bodyPatch body = patch →
      (PatchSandboxesSandboxID o cache raw (.ok body)).response =
        (match (UpdateSandboxMetadata o cache sandboxID patch).result with
          | none => ⟨200, none⟩
          | some e => ⟨e.Code, some e.ClientMsg⟩)) := by
  refine ⟨⟨usm_result_none o cache sandboxID patch, ?_⟩, ?_, ?_, ?_, ?_⟩
  · rintro ⟨info, client, h1, h2, h3⟩
    rw [usm_acked o cache sandboxID patch info client h1 h2 h3]
  · intro h0
    rw [usm_notFound o cache sandboxID patch h0]
  · intro info err h1 h2
    rw [usm_unreachable o cache sandboxID patch info err h1 h2]
    exact ⟨rfl, by simp [updateRequests]⟩
  · intro info client err h1 h2 h3
    rw [usm_rejected o cache sandboxID patch info client err h1 h2 h3]
  · intro raw body hs hb
    rw [(handler_ok_response o cache raw body).1, hs, hb]

/-- C9: when both calls succeed, updating with p1 and then with p2 leaves every
cached key as one successful update with the patch "p1 overridden by p2" does:
the value is p2's when p2 has the key, else p1's when p1 has it, else the one
cached before. -/
theorem two_updates_equal_one_combined (o1 o2 o3 : Deps) (cache : InstanceCache)
    (sandboxID : String) (p1 p2 : GoMap)
    (h1 : (UpdateSandboxMetadata o1 cache sandboxID p1).result = none)
    (h2 : (UpdateSandboxMetadata o2 (UpdateSandboxMetadata o1 cache sandboxID p1).cache
      sandboxID p2).result = none)
    (h3 : (UpdateSandboxMetadata o3 cache sandboxID (patchOverriddenBy p1 p2)).result = none)
    (k : String) :
    cachedGet (UpdateSandboxMetadata o2 (UpdateSandboxMetadata o1 cache sandboxID p1).cache
        sandboxID p2).cache sandboxID k =
      cachedGet (UpdateSandboxMetadata o3 cache sandboxID (patchOverriddenBy p1 p2)).cache
        sandboxID k ∧
    cachedGet (UpdateSandboxMetadata o2 (UpdateSandboxMetadata o1 cache sandboxID p1).cache
        sandboxID p2).cache sandboxID k =
      (p2.get k).orElse (fun _ => (p1.get k).orElse (fun _ => cachedGet cache sandboxID k)) := by
  have hseq := cachedGet_after_ack o2 _ sandboxID p2 h2 k
  rw [cachedGet_after_ack o1 cache sandboxID p1 h1 k] at hseq
  have hone := cachedGet_after_ack o3 cache sandboxID (patchOverriddenBy p1 p2) h3 k
  rw [get_patchOverriddenBy] at hone
  refine ⟨?_, hseq⟩
  rw [hseq, hone]
  cases p2.get k <;> cases p1.get k <;> rfl

/-- C9 on the data of `TestSandboxMetadataUpdateMultipleUpdates`. -/
theorem two_updates_equal_one_combined_witness :
    (UpdateSandboxMetadata okDeps (oneRecord 0 multiInitial) "sbx" firstUpdate).result = none ∧
    (UpdateSandboxMetadata okDeps (UpdateSandboxMetadata okDeps (oneRecord 0 multiInitial)
      "sbx" firstUpdate).cache "sbx" secondUpdate).result = none ∧
    (UpdateSandboxMetadata okDeps (oneRecord 0 multiInitial) "sbx"
      (patchOverriddenBy firstUpdate secondUpdate)).result = none ∧
    (cachedGet (UpdateSandboxMetadata okDeps (UpdateSandboxMetadata okDeps
          (oneRecord 0 multiInitial) "sbx" firstUpdate).cache "sbx" secondUpdate).cache
          "sbx" "version" =
        cachedGet (UpdateSandboxMetadata okDeps (oneRecord 0 multiInitial) "sbx"
          (patchOverriddenBy firstUpdate secondUpdate)).cache "sbx" "version" ∧
      cachedGet (UpdateSandboxMetadata okDeps (UpdateSandboxMetadata okDeps
          (oneRecord 0 multiInitial) "sbx" firstUpdate).cache "sbx" secondUpdate).cache
          "sbx" "version" =
        (secondUpdate.get "version").orElse (fun _ => (firstUpdate.get "version").orElse
          (fun _ => cachedGet (oneRecord 0 multiInitial) "sbx" "version"))) ∧
    cachedGet (UpdateSandboxMetadata okDeps (UpdateSandboxMetadata okDeps
      (oneRecord 0 multiInitial) "sbx" firstUpdate).cache "sbx" secondUpdate).cache
      "sbx" "version" = some "1.2.0" ∧
    cachedGet (UpdateSandboxMetadata okDeps (UpdateSandboxMetadata okDeps
      (oneRecord 0 multiInitial) "sbx" firstUpdate).cache "sbx" secondUpdate).cache
      "sbx" "env" = some "test" ∧
    cachedGet (UpdateSandboxMetadata okDeps (UpdateSandboxMetadata okDeps
      (oneRecord 0 multiInitial) "sbx" firstUpdate).cache "sbx" secondUpdate).cache
      "sbx" "branch" = some "feature-a" ∧
    cachedGet (UpdateSandboxMetadata okDeps (UpdateSandboxMetadata okDeps
      (oneRecord 0 multiInitial) "sbx" firstUpdate).cache "sbx" secondUpdate).cache
      "sbx" "build_id" = some "abc123" ∧
    cachedGet (UpdateSandboxMetadata okDeps (UpdateSandboxMetadata okDeps
      (oneRecord 0 multiInitial) "sbx" firstUpdate).cache "sbx" secondUpdate).cache
      "sbx" "deployed" = some "true" :=
  ⟨rfl, rfl, rfl,
    two_updates_equal_one_combined okDeps okDeps okDeps (oneRecord 0 multiInitial) "sbx"
      firstUpdate secondUpdate rfl rfl rfl "version",
    by decide, by decide, by decide, by decide, by decide⟩

/-- C10: after any call of `UpdateSandboxMetadata`, successful or not, every
sandbox has a record exactly when it had one before, with the same owning node
and the same end time, and the records of all sandboxes other than the one
updated are unchanged; the same holds for any run of the handler. -/
theorem update_changes_only_metadata (o : Deps) (cache : InstanceCache) (sandboxID : String)
    (patch : GoMap) (other : String) :
    ((UpdateSandboxMetadata o cache sandboxID patch).cache other).map
        (fun r => (r.nodeID, r.endTime)) =
      (cache other).map (fun r => (r.nodeID, r.endTime)) ∧
    (other ≠ sandboxID →
      (UpdateSandboxMetadata o cache sandboxID patch).cache other = cache other) ∧
    (∀ parsed,
      ((PatchSandboxesSandboxID o cache sandboxID parsed).cache other).map
          (fun r => (r.nodeID, r.endTime)) =
        (cache other).map (fun r => (r.nodeID, r.endTime)) ∧
      (other ≠ o.ShortID sandboxID →
        (PatchSandboxesSandboxID o cache sandboxID parsed).cache other = cache other)) := by
  have key : ∀ (id : String) (p : GoMap),
      ((UpdateSandboxMetadata o cache id p).cache other).map (fun r => (r.nodeID, r.endTime)) =
        (cache other).map (fun r => (r.nodeID, r.endTime)) ∧
      (other ≠ id → (UpdateSandboxMetadata o cache id p).cache other = cache other) := by
    intro id p
    rcases usm_cache_shape o cache id p with hc | ⟨m, hc⟩
    · rw [hc]; exact ⟨rfl, fun _ => rfl⟩
    · rw [hc]
      exact ⟨setMetadata_frame cache id other m, fun ho => setMetadata_other cache id other m ho⟩
  refine ⟨(key sandboxID patch).1, (key sandboxID patch).2, ?_⟩
  intro parsed
  cases parsed with
  | error err => exact ⟨rfl, fun _ => rfl⟩
  | ok body =>
    rw [(handler_ok_response o cache sandboxID body).2]
    exact key (o.ShortID sandboxID) (bodyPatch body)

/-- C10 on the data of `TestSandboxMetadataUpdateCheckEndTime`: the end time
read before and after a PATCH without metadata is the same. -/
theorem update_changes_only_metadata_witness :
    ((PatchSandboxesSandboxID okDeps (oneRecord 1730000000 (.lit [("existing", "data")])) "sbx"
        (.ok ⟨none⟩)).cache "sbx").map (fun r => (r.nodeID, r.endTime)) =
      (oneRecord 1730000000 (.lit [("existing", "data")]) "sbx").map
        (fun r => (r.nodeID, r.endTime)) ∧
    (PatchSandboxesSandboxID okDeps (oneRecord 1730000000 (.lit [("existing", "data")])) "sbx"
      (.ok ⟨none⟩)).response = ⟨200, none⟩ ∧
    ((PatchSandboxesSandboxID okDeps (oneRecord 1730000000 (.lit [("existing", "data")])) "sbx"
      (.ok ⟨none⟩)).cache "sbx").map (fun r => r.endTime) = some 1730000000 :=
  ⟨((update_changes_only_metadata okDeps (oneRecord 1730000000 (.lit [("existing", "data")]))
      "sbx" .nil "sbx").2.2 (.ok ⟨none⟩)).1, by decide, by decide⟩

/-! ## What the caller sees of a failure -/

/-- The response the handler sends for a failure that `UpdateSandboxMetadata`
reports, by kind. -/
theorem handler_response_of_kind (o : Deps) (cache : InstanceCache) (sandboxID : String)
    (body : Body) (kind : FailureKind)
    (hk : failureKind o cache sandboxID (.ok body) = some kind) :
    ∃ e, (UpdateSandboxMetadata o cache (o.ShortID sandboxID) (bodyPatch body)).result = some e ∧
      (PatchSandboxesSandboxID o cache sandboxID (.ok body)).response =
        ⟨e.Code, some e.ClientMsg⟩ ∧
      Call.reportError "error when updating sandbox metadata" e.Err ∈
        (PatchSandboxesSandboxID o cache sandboxID (.ok body)).calls ∧
      (kind = .notFound → (⟨e.Code, some e.ClientMsg⟩ : Response) =
        ⟨404, some "Sandbox not found"⟩) ∧
      (kind = .nodeUnavailable → (⟨e.Code, some e.ClientMsg⟩ : Response) =
        ⟨500, some "Failed to connect to sandbox node"⟩) ∧
      (kind = .remoteUpdateFailed → (⟨e.Code, some e.ClientMsg⟩ : Response) =
        ⟨500, some "Failed to update sandbox metadata"⟩) := by
  have hresp : ∀ e, (UpdateSandboxMetadata o cache (o.ShortID sandboxID)
      (bodyPatch body)).result = some e →
      (PatchSandboxesSandboxID o cache sandboxID (.ok body)).response =
        ⟨e.Code, some e.ClientMsg⟩ ∧
      Call.reportError "error when updating sandbox metadata" e.Err ∈
        (PatchSandboxesSandboxID o cache sandboxID (.ok body)).calls := by
    intro e he
    unfold PatchSandboxesSandboxID
    simp [he]
  unfold failureKind at hk
  cases h0 : cache (o.ShortID sandboxID) with
  | none =>
    simp [h0] at hk
    subst hk
    have hu := usm_notFound o cache (o.ShortID sandboxID) (bodyPatch body) h0
    exact ⟨_, by rw [hu], (hresp _ (by rw [hu])).1, (hresp _ (by rw [hu])).2,
        by simp, by simp, by simp⟩
  | some info =>
    cases h1 : o.GetClient info.nodeID with
    | error err =>
      simp [h0, h1] at hk
      subst hk
      have hu := usm_unreachable o cache (o.ShortID sandboxID) (bodyPatch body) info err h0 h1
      exact ⟨_, by rw [hu], (hresp _ (by rw [hu])).1, (hresp _ (by rw [hu])).2,
        by simp, by simp, by simp⟩
    | ok client =>
      cases h2 : o.UnwrapGRPCError (client.Update
          ⟨o.ShortID sandboxID, .alloc (newMetadata info.metadata (bodyPatch body))⟩) with
      | none => simp [h0, h1, h2] at hk
      | some err =>
        simp [h0, h1, h2] at hk
        subst hk
        have hu := usm_rejected o cache (o.ShortID sandboxID) (bodyPatch body) info client err
          h0 h1 h2
        exact ⟨_, by rw [hu], (hresp _ (by rw [hu])).1, (hresp _ (by rw [hu])).2,
        by simp, by simp, by simp⟩

theorem failureKind_ok_ne_badRequest (o : Deps) (cache : InstanceCache) (sandboxID : String)
    (body : Body) : failureKind o cache sandboxID (.ok body) ≠ some .badRequest := by
  unfold failureKind
  cases h0 : cache (o.ShortID sandboxID) with
  | none => simp
  | some info =>
    cases h1 : o.GetClient info.nodeID with
    | error err => simp [h1]
    | ok client =>
      cases h2 : o.UnwrapGRPCError (client.Update
          ⟨o.ShortID sandboxID, .alloc (newMetadata info.metadata (bodyPatch body))⟩) <;>
        simp [h1, h2]

/-- C8, as stated, fails: two runs that both fail on a malformed body, with
different parse errors, send the caller different messages. -/
theorem parse_error_text_reaches_caller :
    failureKind okDeps (oneRecord 0 .nil) "sbx" (.error ⟨"unexpected EOF"⟩) =
      some .badRequest ∧
    failureKind okDeps (oneRecord 0 .nil) "sbx" (.error ⟨"invalid character"⟩) =
      some .badRequest ∧
    (PatchSandboxesSandboxID okDeps (oneRecord 0 .nil) "sbx"
      (.error ⟨"unexpected EOF"⟩)).response =
        ⟨400, some "Error when parsing request: unexpected EOF"⟩ ∧
    (PatchSandboxesSandboxID okDeps (oneRecord 0 .nil) "sbx"
      (.error ⟨"invalid character"⟩)).response =
        ⟨400, some "Error when parsing request: invalid character"⟩ ∧
    (PatchSandboxesSandboxID okDeps (oneRecord 0 .nil) "sbx"
      (.error ⟨"unexpected EOF"⟩)).response ≠
    (PatchSandboxesSandboxID okDeps (oneRecord 0 .nil) "sbx"
      (.error ⟨"invalid character"⟩)).response := by
  refine ⟨rfl, rfl, by decide, by decide, by decide⟩

/-- C8, amended: for two runs that fail with the same kind, when the kind is
sandbox not found, node unreachable or remote update failed, the caller gets
the same status and message, fixed by the kind, and the underlying error is
reported to telemetry; when the kind is malformed body, the status is 400 and
the message is "Error when parsing request: " followed by the text of the
parse error. -/
theorem failure_response_by_kind (o1 o2 : Deps) (cache1 cache2 : InstanceCache)
    (id1 id2 : String) (parsed1 parsed2 : Except GoError Body) (kind : FailureKind)
    (hk1 : failureKind o1 cache1 id1 parsed1 = some kind)
    (hk2 : failureKind o2 cache2 id2 parsed2 = some kind) :
    (kind ≠ .badRequest →
      (PatchSandboxesSandboxID o1 cache1 id1 parsed1).response =
        (PatchSandboxesSandboxID o2 cache2 id2 parsed2).response ∧
      (kind = .notFound → (PatchSandboxesSandboxID o1 cache1 id1 parsed1).response =
        ⟨404, some "Sandbox not found"⟩) ∧
      (kind = .nodeUnavailable → (PatchSandboxesSandboxID o1 cache1 id1 parsed1).response =
        ⟨500, some "Failed to connect to sandbox node"⟩) ∧
      (kind = .remoteUpdateFailed → (PatchSandboxesSandboxID o1 cache1 id1 parsed1).response =
        ⟨500, some "Failed to update sandbox metadata"⟩) ∧
      ∃ body e, parsed1 = .ok body ∧
        (UpdateSandboxMetadata o1 cache1 (o1.ShortID id1) (bodyPatch body)).result = some e ∧
        Call.reportError "error when updating sandbox metadata" e.Err ∈
          (PatchSandboxesSandboxID o1 cache1 id1 parsed1).calls) ∧
    (kind = .badRequest →
      ∃ err, parsed1 = .error err ∧
        (PatchSandboxesSandboxID o1 cache1 id1 parsed1).response =
          ⟨400, some ("Error when parsing request: " ++ err.text)⟩ ∧
        Call.reportCriticalError "error when parsing request" err ∈
          (PatchSandboxesSandboxID o1 cache1 id1 parsed1).calls) := by
  constructor
  · intro hne
    cases parsed1 with
    | error e1 => simp [failureKind] at hk1; exact absurd hk1.symm hne
    | ok b1 =>
      cases parsed2 with
      | error e2 => simp [failureKind] at hk2; exact absurd hk2.symm hne
      | ok b2 =>
        obtain ⟨e1, hr1, hresp1, hlog1, ha1, hb1, hc1⟩ :=
          handler_response_of_kind o1 cache1 id1 b1 kind hk1
        obtain ⟨e2, _, hresp2, _, ha2, hb2, hc2⟩ :=
          handler_response_of_kind o2 cache2 id2 b2 kind hk2
        refine ⟨?_, ?_, ?_, ?_, b1, e1, rfl, hr1, hlog1⟩
        · rw [hresp1, hresp2]
          cases kind with
          | badRequest => exact absurd rfl hne
          | notFound => rw [ha1 rfl, ha2 rfl]
          | nodeUnavailable => rw [hb1 rfl, hb2 rfl]
          | remoteUpdateFailed => rw [hc1 rfl, hc2 rfl]
        · intro hkind; rw [hresp1, ha1 hkind]
        · intro hkind; rw [hresp1, hb1 hkind]
        · intro hkind; rw [hresp1, hc1 hkind]
  · intro hb
    subst hb
    cases parsed1 with
    | error e1 => exact ⟨e1, rfl, rfl, by simp [PatchSandboxesSandboxID]⟩
    | ok b1 => exact absurd hk1 (failureKind_ok_ne_badRequest o1 cache1 id1 b1)

/-- C8 amended, on a node that rejects the update with two different errors:
both callers get 500 "Failed to update sandbox metadata". -/
theorem failure_response_by_kind_witness :
    failureKind (rejectDeps ⟨"rpc error: deadline exceeded"⟩) (oneRecord 0 .nil) "sbx"
      (.ok ⟨none⟩) = some .remoteUpdateFailed ∧
    failureKind (rejectDeps ⟨"rpc error: internal"⟩) (oneRecord 0 .nil) "sbx"
      (.ok ⟨none⟩) = some .remoteUpdateFailed ∧
    (PatchSandboxesSandboxID (rejectDeps ⟨"rpc error: deadline exceeded"⟩) (oneRecord 0 .nil)
        "sbx" (.ok ⟨none⟩)).response =
      (PatchSandboxesSandboxID (rejectDeps ⟨"rpc error: internal"⟩) (oneRecord 0 .nil)
        "sbx" (.ok ⟨none⟩)).response ∧
    (PatchSandboxesSandboxID (rejectDeps ⟨"rpc error: deadline exceeded"⟩) (oneRecord 0 .nil)
        "sbx" (.ok ⟨none⟩)).response = ⟨500, some "Failed to update sandbox metadata"⟩ :=
  ⟨rfl, rfl,
    ((failure_response_by_kind (rejectDeps ⟨"rpc error: deadline exceeded"⟩)
      (rejectDeps ⟨"rpc error: internal"⟩) (oneRecord 0 .nil) (oneRecord 0 .nil) "sbx" "sbx"
      (.ok ⟨none⟩) (.ok ⟨none⟩) .remoteUpdateFailed rfl rfl).1 (by decide)).1,
    by decide⟩

/-! ## Two calls in flight -/

/-- The three steps, run back to back, are one call of `UpdateSandboxMetadata`. -/
theorem three_steps_are_one_call (o : Deps) (cache : InstanceCache) (sandboxID : String)
    (patch : GoMap) :
    stepCall o (stepCall o (stepCall o cache (.start sandboxID patch)).1
        (stepCall o cache (.start sandboxID patch)).2).1
      (stepCall o (stepCall o cache (.start sandboxID patch)).1
        (stepCall o cache (.start sandboxID patch)).2).2 =
      ((UpdateSandboxMetadata o cache sandboxID patch).cache,
        .done (UpdateSandboxMetadata o cache sandboxID patch).result) := by
  rcases usm_cases o cache sandboxID patch with h0 | ⟨info, err, h1, h2⟩ |
    ⟨info, client, err, h1, h2, h3⟩ | ⟨info, client, h1, h2, h3⟩
  · rw [usm_notFound o cache sandboxID patch h0]
    simp [stepCall, instanceCacheGet, h0]
  · rw [usm_unreachable o cache sandboxID patch info err h1 h2]
    simp [stepCall, instanceCacheGet, h1, h2]
  · rw [usm_rejected o cache sandboxID patch info client err h1 h2 h3]
    simp [stepCall, instanceCacheGet, h1, h2, h3]
  · rw [usm_acked o cache sandboxID patch info client h1 h2 h3]
    simp [stepCall, instanceCacheGet, h1, h2, h3]

theorem get_none_of_disjoint (p1 p2 : GoMap) (hd : ∀ k ∈ p1.keys, k ∉ p2.keys) (k v : String)
    (h : p1.get k = some v) : p2.get k = none := by
  have hk : k ∈ p1.keys := (GoMap.mem_keys_iff p1 k).mpr (by simp [h])
  have hn : ¬ (p2.get k).isSome := fun hs => hd k hk ((GoMap.mem_keys_iff p2 k).mpr hs)
  simpa using hn

/-- C7, as stated, fails: both calls read the record before either commits;
both remote commits succeed, both calls return nil, and the entry of the first
patch is not in the final cached metadata. -/
theorem interleaved_updates_lose_a_patch :
    isInterleaving [false, true, false, false, true, true] = true ∧
    (∀ k ∈ (GoMap.lit [("a", "1")]).keys, k ∉ (GoMap.lit [("b", "2")]).keys) ∧
    (GoMap.lit [("a", "1")]).get "a" = some "1" ∧
    (runSchedule okDeps (oneRecord 0 .nil) "sbx" (.lit [("a", "1")]) (.lit [("b", "2")])
      [false, true, false, false, true, true]).first.succeeded = true ∧
    (runSchedule okDeps (oneRecord 0 .nil) "sbx" (.lit [("a", "1")]) (.lit [("b", "2")])
      [false, true, false, false, true, true]).second.succeeded = true ∧
    cachedGet (runSchedule okDeps (oneRecord 0 .nil) "sbx" (.lit [("a", "1")]) (.lit [("b", "2")])
      [false, true, false, false, true, true]).cache "sbx" "a" = none ∧
    cachedGet (runSchedule okDeps (oneRecord 0 .nil) "sbx" (.lit [("a", "1")]) (.lit [("b", "2")])
      [false, true, false, false, true, true]).cache "sbx" "b" = some "2" := by
  refine ⟨by decide, by decide, by decide, by decide, by decide, by decide, by decide⟩

/-- C7, amended: for two update calls on the same sandbox whose patches have
disjoint key sets and whose remote commits succeed, under every interleaving of
their steps both calls return nil and the final cached metadata contains every
entry of the patch of the call that commits last; when one call runs all its
steps before the other starts, it contains every entry of both patches. -/
theorem interleaved_updates_keep_last_patch (o : Deps) (cache : InstanceCache)
    (sandboxID : String) (p1 p2 : GoMap) (info : InstanceInfo) (client : Client)
    (sched : List Bool)
    (hrec : cache sandboxID = some info) (hcli : o.GetClient info.nodeID = .ok client)
    (hupd : ∀ req, o.UnwrapGRPCError (client.Update req) = none)
    (hdisj : ∀ k ∈ p1.keys, k ∉ p2.keys)
    (hi : isInterleaving sched = true) :
    (runSchedule o cache sandboxID p1 p2 sched).first.succeeded = true ∧
    (runSchedule o cache sandboxID p1 p2 sched).second.succeeded = true ∧
    (∀ k v, (if sched.getLast? = some true then p2 else p1).get k = some v →
      cachedGet (runSchedule o cache sandboxID p1 p2 sched).cache sandboxID k = some v) ∧
    (sched = [false, false, false, true, true, true] ∨
        sched = [true, true, true, false, false, false] →
      ∀ k v, p1.get k = some v ∨ p2.get k = some v →
        cachedGet (runSchedule o cache sandboxID p1 p2 sched).cache sandboxID k = some v) := by
  have hlen : sched.length = 6 := by
    simp [isInterleaving] at hi
    have := List.count_false_add_count_true sched
    omega
  have hrec2 : ∀ m, setMetadata cache sandboxID m sandboxID =
      some ⟨info.nodeID, info.endTime, m⟩ :=
    fun m => setMetadata_same cache sandboxID m info hrec
  have hrec3 : ∀ m m2, setMetadata (setMetadata cache sandboxID m) sandboxID m2 sandboxID =
      some ⟨info.nodeID, info.endTime, m2⟩ :=
    fun m m2 => setMetadata_same _ sandboxID m2 ⟨info.nodeID, info.endTime, m⟩ (hrec2 m)
  have hmain : (runSchedule o cache sandboxID p1 p2 sched).first.succeeded = true ∧
      (runSchedule o cache sandboxID p1 p2 sched).second.succeeded = true ∧
      (∀ k v, (if sched.getLast? = some true then p2 else p1).get k = some v →
        cachedGet (runSchedule o cache sandboxID p1 p2 sched).cache sandboxID k = some v) := by
    match sched, hlen with
    | [a, b, c, d, e, f], _ =>
      cases a <;> cases b <;> cases c <;> cases d <;> cases e <;> cases f <;>
        first
        | (exfalso; revert hi; decide)
        | (simp [runSchedule, stepTwo, stepCall, instanceCacheGet, hrec, hcli, hupd, hrec2,
            CallState.succeeded, cachedGet, hrec3, GoMap.get, lookup_newMetadata]
           try (intro k v h; simp [h]))
  refine ⟨hmain.1, hmain.2.1, hmain.2.2, ?_⟩
  rintro (rfl | rfl) k v hkv
  · have hval : cachedGet (runSchedule o cache sandboxID p1 p2
        [false, false, false, true, true, true]).cache sandboxID k =
        (p2.get k).orElse (fun _ => (p1.get k).orElse (fun _ => info.metadata.get k)) := by
      simp [runSchedule, stepTwo, stepCall, instanceCacheGet, hrec, hcli, hupd, hrec2,
        cachedGet, hrec3, GoMap.get, lookup_newMetadata]
    rw [hval]
    rcases hkv with h1 | h2
    · rw [get_none_of_disjoint p1 p2 hdisj k v h1, h1]; rfl
    · rw [h2]; rfl
  · have hval : cachedGet (runSchedule o cache sandboxID p1 p2
        [true, true, true, false, false, false]).cache sandboxID k =
        (p1.get k).orElse (fun _ => (p2.get k).orElse (fun _ => info.metadata.get k)) := by
      simp [runSchedule, stepTwo, stepCall, instanceCacheGet, hrec, hcli, hupd, hrec2,
        cachedGet, hrec3, GoMap.get, lookup_newMetadata]
    rw [hval]
    rcases hkv with h1 | h2
    · rw [h1]; rfl
    · have hn : p1.get k = none := by
        cases h : p1.get k with
        | none => rfl
        | some w =>
          rw [get_none_of_disjoint p1 p2 hdisj k w h] at h2
          exact absurd h2 (by simp)
      rw [hn, h2]; rfl

/-- C7 amended, on the patches of the counterexample run one after the other:
both entries are cached. -/
theorem interleaved_updates_keep_last_patch_witness :
    oneRecord 0 .nil "sbx" = some ⟨"node-1", 0, .nil⟩ ∧
    okDeps.GetClient "node-1" = .ok okClient ∧
    (∀ req, okDeps.UnwrapGRPCError (okClient.Update req) = none) ∧
    (∀ k ∈ (GoMap.lit [("a", "1")]).keys, k ∉ (GoMap.lit [("b", "2")]).keys) ∧
    isInterleaving [false, false, false, true, true, true] = true ∧
    ((runSchedule okDeps (oneRecord 0 .nil) "sbx" (.lit [("a", "1")]) (.lit [("b", "2")])
        [false, false, false, true, true, true]).first.succeeded = true ∧
      (runSchedule okDeps (oneRecord 0 .nil) "sbx" (.lit [("a", "1")]) (.lit [("b", "2")])
        [false, false, false, true, true, true]).second.succeeded = true ∧
      (∀ k v, (if [false, false, false, true, true, true].getLast? = some true
          then GoMap.lit [("b", "2")] else GoMap.lit [("a", "1")]).get k = some v →
        cachedGet (runSchedule okDeps (oneRecord 0 .nil) "sbx" (.lit [("a", "1")])
          (.lit [("b", "2")]) [false, false, false, true, true, true]).cache "sbx" k = some v) ∧
      ([false, false, false, true, true, true] = [false, false, false, true, true, true] ∨
          [false, false, false, true, true, true] = [true, true, true, false, false, false] →
        ∀ k v, (GoMap.lit [("a", "1")]).get k = some v ∨ (GoMap.lit [("b", "2")]).get k = some v →
          cachedGet (runSchedule okDeps (oneRecord 0 .nil) "sbx" (.lit [("a", "1")])
            (.lit [("b", "2")]) [false, false, false, true, true, true]).cache "sbx" k =
            some v)) ∧
    cachedGet (runSchedule okDeps (oneRecord 0 .nil) "sbx" (.lit [("a", "1")])
      (.lit [("b", "2")]) [false, false, false, true, true, true]).cache "sbx" "a" = some "1" ∧
    cachedGet (runSchedule okDeps (oneRecord 0 .nil) "sbx" (.lit [("a", "1")])
      (.lit [("b", "2")]) [false, false, false, true, true, true]).cache "sbx" "b" = some "2" :=
  ⟨rfl, rfl, fun _ => rfl, by decide, by decide,
    interleaved_updates_keep_last_patch okDeps (oneRecord 0 .nil) "sbx" (.lit [("a", "1")])
      (.lit [("b", "2")]) ⟨"node-1", 0, .nil⟩ okClient [false, false, false, true, true, true]
      rfl rfl (fun _ => rfl) (by decide) (by decide),
    by decide, by decide⟩

end Infra
